import Mathlib

/-!
Verification of the vitalschedule repository.

Part A embeds the no-show ROI calculators that are present in the source
(`src/pages/ROI.js`, and the unnamed parts 001, 006, 007).  JavaScript
numbers are modelled as exact rationals (`ℚ`); `Math.round` is modelled by
`jsRound` (round half up, the JS semantics); `Math.log10` forces the
implementation-cost helper into `ℝ`.

Part B models the feature/label/partitioning pipeline.  The Python files
(`code/readmission/data_processing.py`, `feature_extraction.py`,
`model_training.py`, …) are referenced by the repository README but are not
present in the source tree, so those components are modelled from the
specification; each such definition carries a doc comment starting
`Modelled from the spec:`.
-/

/-- JavaScript `Math.round`: round half away from zero for positive halves,
i.e. `⌊x + 1/2⌋`. -/
def jsRound (x : ℚ) : ℤ := ⌊x + 1/2⌋

namespace ROIPage

/-- Inputs of the No-Show calculator of `src/pages/ROI.js` (the `inputs`
state object, `centerSize` aside, which the arithmetic never reads). -/
structure NoShowInputs where
  annualVisits : ℚ
  currentNoShowRate : ℚ
  revenuePerVisit : ℚ
  expectedReduction : ℚ
  implementationCost : ℚ
  annualMaintenanceCost : ℚ
  deriving Repr, DecidableEq

/-- Result record of `calculateROI` in `src/pages/ROI.js` (the `results`
state object). -/
structure NoShowResults where
  appointmentsSaved : ℤ
  directRevenue : ℚ
  providerProductivity : ℚ
  frontDeskEfficiency : ℚ
  reducedOvertime : ℚ
  improvedCollections : ℚ
  payerMixOptimization : ℚ
  patientRetention : ℚ
  totalAnnualBenefit : ℚ
  firstYearROI : ℚ
  threeYearROI : ℚ
  fiveYearROI : ℚ
  paybackMonths : ℚ
  deriving Repr, DecidableEq

/-- Function `calculateROI` of the `NoShowCalculator` component of
`src/pages/ROI.js`, lines 84–151, translated constant for constant. -/
def calculateROI (i : NoShowInputs) : NoShowResults :=
  let appointmentsSaved : ℤ :=
    jsRound (i.annualVisits * (i.currentNoShowRate / 100) * (i.expectedReduction / 100))
  let directRevenue : ℚ := appointmentsSaved * i.revenuePerVisit
  let providerHourlyCost : ℚ := 150
  let avgApptLength : ℚ := 1/2
  let providerProductivity := (appointmentsSaved : ℚ) * avgApptLength * providerHourlyCost
  let staffHourlyCost : ℚ := 25
  let frontDeskTimePerNoShow : ℚ := 33/100
  let frontDeskEfficiency := (appointmentsSaved : ℚ) * frontDeskTimePerNoShow * staffHourlyCost
  let estimatedStaffFTE := i.annualVisits / 2500
  let otReductionHours := estimatedStaffFTE * 2 * (i.expectedReduction / 100)
  let reducedOvertime := otReductionHours * staffHourlyCost * (3/2)
  let collectionRateImprovement : ℚ := 5/100
  let improvedCollections := i.annualVisits * i.revenuePerVisit * collectionRateImprovement
  let payerMixImprovement : ℚ := 3/100
  let payerMixOptimization := i.annualVisits * i.revenuePerVisit * payerMixImprovement
  let patientRetentionValue : ℚ := 100
  let patientsRetained := i.annualVisits / 4 * (i.expectedReduction / 100) * (2/10)
  let patientRetention := patientsRetained * patientRetentionValue
  let totalAnnualBenefit := directRevenue + providerProductivity + frontDeskEfficiency +
                          reducedOvertime + improvedCollections + payerMixOptimization +
                          patientRetention
  let totalFirstYearCost := i.implementationCost + i.annualMaintenanceCost
  let firstYearROI := (totalAnnualBenefit - totalFirstYearCost) / totalFirstYearCost
  let totalThreeYearCost := i.implementationCost + (i.annualMaintenanceCost * 3)
  let threeYearROI := ((totalAnnualBenefit * 3) - totalThreeYearCost) / totalThreeYearCost
  let totalFiveYearCost := i.implementationCost + (i.annualMaintenanceCost * 5)
  let fiveYearROI := ((totalAnnualBenefit * 5) - totalFiveYearCost) / totalFiveYearCost
  let monthlyNetBenefit := (totalAnnualBenefit - i.annualMaintenanceCost) / 12
  let paybackMonths := i.implementationCost / monthlyNetBenefit
  { appointmentsSaved, directRevenue, providerProductivity, frontDeskEfficiency,
    reducedOvertime, improvedCollections, payerMixOptimization, patientRetention,
    totalAnnualBenefit, firstYearROI, threeYearROI, fiveYearROI, paybackMonths }

end ROIPage

namespace SimpleROI

/-- Inputs of `SimpleROICalculator` in `src/unnamed/part_001`: the no-show
rate and the expected reduction are stored as decimal fractions (the change
handler divides the percentage fields by 100 before storing them). -/
structure Inputs where
  annualVisits : ℚ
  currentNoShowRate : ℚ
  revenuePerVisit : ℚ
  expectedNoShowReduction : ℚ
  implementationCost : ℚ
  annualMaintenanceCost : ℚ
  deriving Repr, DecidableEq

/-- Function `calculateROI` of `SimpleROICalculator` (`src/unnamed/part_001`,
lines 86–143): identical formulas to the ROI page except that the two rate
inputs are already decimals, so no `/ 100` appears. -/
def calculateROI (i : Inputs) : ROIPage.NoShowResults :=
  let appointmentsSaved : ℤ :=
    jsRound (i.annualVisits * i.currentNoShowRate * i.expectedNoShowReduction)
  let directRevenue : ℚ := appointmentsSaved * i.revenuePerVisit
  let providerHourlyCost : ℚ := 150
  let avgApptLength : ℚ := 1/2
  let providerProductivity := (appointmentsSaved : ℚ) * avgApptLength * providerHourlyCost
  let staffHourlyCost : ℚ := 25
  let frontDeskTimePerNoShow : ℚ := 33/100
  let frontDeskEfficiency := (appointmentsSaved : ℚ) * frontDeskTimePerNoShow * staffHourlyCost
  let estimatedStaffFTE := i.annualVisits / 2500
  let otReductionHours := estimatedStaffFTE * 2 * i.expectedNoShowReduction
  let reducedOvertime := otReductionHours * staffHourlyCost * (3/2)
  let collectionRateImprovement : ℚ := 5/100
  let improvedCollections := i.annualVisits * i.revenuePerVisit * collectionRateImprovement
  let payerMixImprovement : ℚ := 3/100
  let payerMixOptimization := i.annualVisits * i.revenuePerVisit * payerMixImprovement
  let patientRetentionValue : ℚ := 100
  let patientsRetained := i.annualVisits / 4 * i.expectedNoShowReduction * (2/10)
  let patientRetention := patientsRetained * patientRetentionValue
  let totalAnnualBenefit := directRevenue + providerProductivity + frontDeskEfficiency +
                            reducedOvertime + improvedCollections + payerMixOptimization +
                            patientRetention
  let totalFirstYearCost := i.implementationCost + i.annualMaintenanceCost
  let firstYearROI := (totalAnnualBenefit - totalFirstYearCost) / totalFirstYearCost
  let totalThreeYearCost := i.implementationCost + (i.annualMaintenanceCost * 3)
  let threeYearROI := ((totalAnnualBenefit * 3) - totalThreeYearCost) / totalThreeYearCost
  let totalFiveYearCost := i.implementationCost + (i.annualMaintenanceCost * 5)
  let fiveYearROI := ((totalAnnualBenefit * 5) - totalFiveYearCost) / totalFiveYearCost
  let monthlyNetBenefit := (totalAnnualBenefit - i.annualMaintenanceCost) / 12
  let paybackMonths := i.implementationCost / monthlyNetBenefit
  { appointmentsSaved, directRevenue, providerProductivity, frontDeskEfficiency,
    reducedOvertime, improvedCollections, payerMixOptimization, patientRetention,
    totalAnnualBenefit, firstYearROI, threeYearROI, fiveYearROI, paybackMonths }

end SimpleROI

namespace Part006

/-- Inputs of the `NoShowCalculator` component of `src/unnamed/part_006`
(rates are percentages, as on the ROI page). -/
structure NoShowInputs where
  annualVisits : ℚ
  currentNoShowRate : ℚ
  revenuePerVisit : ℚ
  expectedReduction : ℚ
  implementationCost : ℚ
  annualMaintenanceCost : ℚ
  deriving Repr, DecidableEq

/-- One ROI block of `src/unnamed/part_006` (`directRevenueROI` /
`fullBenefitsROI`): the payback period is `⊤` when the code sets
`Number.POSITIVE_INFINITY`. -/
structure RoiBlock where
  firstYearROI : ℚ
  threeYearROI : ℚ
  fiveYearROI : ℚ
  paybackMonths : WithTop ℚ
  deriving Repr, DecidableEq

/-- Result record of `calculateROI` in `src/unnamed/part_006`. -/
structure NoShowResults where
  appointmentsSaved : ℤ
  directRevenue : ℚ
  providerProductivity : ℚ
  frontDeskEfficiency : ℚ
  reducedOvertime : ℚ
  improvedCollections : ℚ
  payerMixOptimization : ℚ
  patientRetention : ℚ
  totalAnnualBenefit : ℚ
  directRevenueROI : RoiBlock
  fullBenefitsROI : RoiBlock
  deriving Repr, DecidableEq

/-- Constant `appointmentsSaved` of `calculateROI` (`src/unnamed/part_006`,
lines 113–115). -/
def appointmentsSaved (i : NoShowInputs) : ℤ :=
  jsRound (i.annualVisits * (i.currentNoShowRate / 100) * (i.expectedReduction / 100))

/-- Constant `directRevenue` of `calculateROI` (`src/unnamed/part_006`, line 118). -/
def directRevenue (i : NoShowInputs) : ℚ :=
  appointmentsSaved i * i.revenuePerVisit

/-- Constant `totalAnnualBenefit` of `calculateROI` (`src/unnamed/part_006`,
lines 120–153): direct revenue plus the six estimated indirect benefits. -/
def totalAnnualBenefit (i : NoShowInputs) : ℚ :=
  let providerHourlyCost : ℚ := 150
  let avgApptLength : ℚ := 1/2
  let providerProductivity := (appointmentsSaved i : ℚ) * avgApptLength * providerHourlyCost
  let staffHourlyCost : ℚ := 25
  let frontDeskTimePerNoShow : ℚ := 33/100
  let frontDeskEfficiency := (appointmentsSaved i : ℚ) * frontDeskTimePerNoShow * staffHourlyCost
  let estimatedStaffFTE := i.annualVisits / 2500
  let otReductionHours := estimatedStaffFTE * 2 * (i.expectedReduction / 100)
  let reducedOvertime := otReductionHours * staffHourlyCost * (3/2)
  let collectionRateImprovement : ℚ := 5/100
  let improvedCollections := i.annualVisits * i.revenuePerVisit * collectionRateImprovement
  let payerMixImprovement : ℚ := 3/100
  let payerMixOptimization := i.annualVisits * i.revenuePerVisit * payerMixImprovement
  let patientRetentionValue : ℚ := 100
  let patientsRetained := i.annualVisits / 4 * (i.expectedReduction / 100) * (2/10)
  let patientRetention := patientsRetained * patientRetentionValue
  directRevenue i + providerProductivity + frontDeskEfficiency +
    reducedOvertime + improvedCollections + payerMixOptimization +
    patientRetention

/-- One ROI block of `calculateROI` (`src/unnamed/part_006`, lines 159–176),
parametrised by the annual benefit it is computed from (`directRevenue` or
`totalAnnualBenefit`): the payback division only happens under the guard
`benefit > annualMaintenanceCost`, otherwise the block holds
`Number.POSITIVE_INFINITY`. -/
def roiBlock (i : NoShowInputs) (benefit : ℚ) : RoiBlock :=
  let totalFirstYearCost := i.implementationCost + i.annualMaintenanceCost
  { firstYearROI := (benefit - totalFirstYearCost) / totalFirstYearCost
    threeYearROI := ((benefit * 3) - (i.implementationCost + (i.annualMaintenanceCost * 3))) /
      (i.implementationCost + (i.annualMaintenanceCost * 3))
    fiveYearROI := ((benefit * 5) - (i.implementationCost + (i.annualMaintenanceCost * 5))) /
      (i.implementationCost + (i.annualMaintenanceCost * 5))
    paybackMonths :=
      if benefit > i.annualMaintenanceCost then
        ((i.implementationCost / ((benefit - i.annualMaintenanceCost) / 12) : ℚ) : WithTop ℚ)
      else ⊤ }

/-- Function `calculateROI` of the `NoShowCalculator` component of
`src/unnamed/part_006`, lines 111–192. -/
def calculateROI (i : NoShowInputs) : NoShowResults :=
  let providerHourlyCost : ℚ := 150
  let avgApptLength : ℚ := 1/2
  let providerProductivity := (appointmentsSaved i : ℚ) * avgApptLength * providerHourlyCost
  let staffHourlyCost : ℚ := 25
  let frontDeskTimePerNoShow : ℚ := 33/100
  let frontDeskEfficiency := (appointmentsSaved i : ℚ) * frontDeskTimePerNoShow * staffHourlyCost
  let estimatedStaffFTE := i.annualVisits / 2500
  let otReductionHours := estimatedStaffFTE * 2 * (i.expectedReduction / 100)
  let reducedOvertime := otReductionHours * staffHourlyCost * (3/2)
  let collectionRateImprovement : ℚ := 5/100
  let improvedCollections := i.annualVisits * i.revenuePerVisit * collectionRateImprovement
  let payerMixImprovement : ℚ := 3/100
  let payerMixOptimization := i.annualVisits * i.revenuePerVisit * payerMixImprovement
  let patientRetentionValue : ℚ := 100
  let patientsRetained := i.annualVisits / 4 * (i.expectedReduction / 100) * (2/10)
  let patientRetention := patientsRetained * patientRetentionValue
  { appointmentsSaved := appointmentsSaved i
    directRevenue := directRevenue i
    providerProductivity, frontDeskEfficiency, reducedOvertime,
    improvedCollections, payerMixOptimization, patientRetention
    totalAnnualBenefit := totalAnnualBenefit i
    directRevenueROI := roiBlock i (directRevenue i)
    fullBenefitsROI := roiBlock i (totalAnnualBenefit i) }

/-- Function `calculateImplementationCost` of `src/unnamed/part_006`, lines 24–31:
logarithmic volume discount, capped at `maxDiscount`, with a `Math.max`
floor at `basePrice`; `Math.log10` puts the definition in `ℝ`. -/
noncomputable def calculateImplementationCost
    (volume basePrice volumeFactor maxDiscount : ℝ) : ℝ :=
  let discount := min maxDiscount (Real.logb 10 (volume / 1000) * (1/10))
  max basePrice (basePrice + (volume * volumeFactor * (1 - discount)))

end Part006

namespace Part007

/-- Constant `appointmentsSaved` of the standalone `ROICalculator`
(`src/unnamed/part_007`, line 11), computed directly from the three input
state variables. -/
def appointmentsSaved (annualVisits noShowRate expectedReduction : ℚ) : ℤ :=
  jsRound (annualVisits * (noShowRate / 100) * (expectedReduction / 100))

/-- Constant `directRevenue` of `src/unnamed/part_007`, line 12. -/
def directRevenue (annualVisits noShowRate expectedReduction revenuePerVisit : ℚ) : ℚ :=
  appointmentsSaved annualVisits noShowRate expectedReduction * revenuePerVisit

/-- Constant `totalBenefit` of `src/unnamed/part_007`, line 13: direct revenue scaled
by the fixed 2.2 factor. -/
def totalBenefit (annualVisits noShowRate expectedReduction revenuePerVisit : ℚ) : ℚ :=
  directRevenue annualVisits noShowRate expectedReduction revenuePerVisit * (22/10)

end Part007

namespace Pipeline

/-- Modelled from the spec: the event types of the §3 data model (diagnosis,
medication order, lab result, prior appointment, prior admission) plus the
no-show outcome event used by the history features of §4.3; the concrete
enumeration lives in the absent `code/readmission` Python sources. -/
inductive EventType
  | admission
  | diagnosis
  | medication
  | lab
  | appointment
  | noShow
  deriving Repr, DecidableEq

/-- Modelled from the spec: an Event of §3 — a timestamped clinical or
administrative fact belonging to a subject.  Times are integer day stamps. -/
structure Event where
  subject_id : ℕ
  event_time : ℤ
  event_type : EventType
  payload : ℕ
  deriving Repr, DecidableEq

/-- Modelled from the spec: a Case of §3 — the unit of prediction, with its
identifiers, the index time (the leakage boundary), the end of the outcome
window, and the static attributes the features read (birth date). -/
structure Case where
  case_id : ℕ
  subject_id : ℕ
  index_time : ℤ
  outcome_window_end : ℤ
  birth_date : ℤ
  deriving Repr, DecidableEq

/-- An event is visible to a case when it belongs to the case's subject and
is timestamped at or before the index time — the §3 leakage boundary. -/
def visible (c : Case) (e : Event) : Bool :=
  e.subject_id == c.subject_id && e.event_time ≤ c.index_time

/-- Modelled from the spec: the fixed-width feature vector of §4.3, one
representative feature per family (demographic, history/behavior, clinical
severity, medication, utilization, contextual); the full feature list lives
in the absent `feature_extraction.py`. -/
structure FeatureVector where
  age : ℤ
  priorNoShowCount : ℕ
  comorbidityCount : ℕ
  medicationCount : ℕ
  priorAdmissionCount : ℕ
  dayOfWeek : ℤ
  deriving Repr, DecidableEq

/-- Modelled from the spec: the §4.3 Feature Extractor — a pure per-case
transform; history and utilization counts scan the subject's events strictly
before the index time, severity and medication counts scan events at or
before it, and the demographic/contextual features read only the case's
static attributes. -/
def extractFeatures (c : Case) (log : List Event) : FeatureVector :=
  { age := c.index_time - c.birth_date
    priorNoShowCount := log.countP fun e =>
      e.subject_id == c.subject_id && e.event_type == .noShow && e.event_time < c.index_time
    comorbidityCount := log.countP fun e =>
      e.subject_id == c.subject_id && e.event_type == .diagnosis && e.event_time ≤ c.index_time
    medicationCount := log.countP fun e =>
      e.subject_id == c.subject_id && e.event_type == .medication && e.event_time ≤ c.index_time
    priorAdmissionCount := log.countP fun e =>
      e.subject_id == c.subject_id && e.event_type == .admission && e.event_time < c.index_time
    dayOfWeek := c.index_time % 7 }

/-- Modelled from the spec: the §3 Label row — outcome plus the censoring
flag. -/
structure LabelRow where
  case_id : ℕ
  label : Bool
  label_known : Bool
  deriving Repr, DecidableEq

/-- An event qualifies as a readmission for a case when it is an admission
of the same subject falling in the half-open forward window
`(index_time, outcome_window_end]` — strictly after the index time, so the
index event itself never qualifies. -/
def qualifies (c : Case) (e : Event) : Bool :=
  e.subject_id == c.subject_id && e.event_type == .admission &&
    c.index_time < e.event_time && e.event_time ≤ c.outcome_window_end

/-- Modelled from the spec: the §4.2 Label Constructor — the label is
positive once any qualifying event exists in the forward window
(first-occurrence semantics), and `label_known` is false when the outcome
window extends past the latest available data horizon. -/
def constructLabel (c : Case) (log : List Event) (horizon : ℤ) : LabelRow :=
  { case_id := c.case_id
    label := log.any (qualifies c)
    label_known := c.outcome_window_end ≤ horizon }

/-- The three named dataset partitions of §3. -/
inductive Part
  | train
  | valid
  | test
  deriving Repr, DecidableEq

/-- Modelled from the spec: the deterministic, seedable pseudo-random
assignment keyed by `subject_id` of §4.4 — a fixed integer mixing function
of the seed and the subject id, reduced to a bucket in `0..99`. -/
def subjectBucket (seed subject : ℕ) : ℕ :=
  (subject * 2654435761 + seed * 2246822519 + 3266489917) % 100

/-- Modelled from the spec: §4.4 partition assignment — the subject's bucket
is compared against the configured train/validation percentages (default
70/15, the rest is test). -/
def assignPart (seed trainPct validPct subject : ℕ) : Part :=
  let b := subjectBucket seed subject
  if b < trainPct then .train
  else if b < trainPct + validPct then .valid
  else .test

/-- Modelled from the spec: §4.4 subject-level partitioning — every case is
routed to the partition assigned to its subject. -/
def splitCases (seed trainPct validPct : ℕ) (cases : List Case) :
    List Case × List Case × List Case :=
  (cases.filter fun c => assignPart seed trainPct validPct c.subject_id == .train,
   cases.filter fun c => assignPart seed trainPct validPct c.subject_id == .valid,
   cases.filter fun c => assignPart seed trainPct validPct c.subject_id == .test)

/-- Modelled from the spec: the §4.4 Dataset Assembler — drop cases whose
label is censored (`label_known = false`), then split the remainder by
subject. -/
def assemble (seed trainPct validPct : ℕ) (horizon : ℤ) (cases : List Case)
    (log : List Event) : List Case × List Case × List Case :=
  splitCases seed trainPct validPct
    (cases.filter fun c => (constructLabel c log horizon).label_known)

/-- Modelled from the spec: the assembled label table — one `(case_id,
label)` row per case with a known label; censored cases get no row, their
label is never imputed. -/
def assembledLabels (horizon : ℤ) (cases : List Case) (log : List Event) :
    List (ℕ × Bool) :=
  (cases.filter fun c => (constructLabel c log horizon).label_known).map
    fun c => (c.case_id, (constructLabel c log horizon).label)

/-- Modelled from the spec: the cross-validation score of one hyperparameter
setting in the §4.5 Trainer — each fold evaluation either succeeds with a
score (`some`) or fails to converge / throws (`none`); the setting's score is
the mean over its folds when every fold succeeded, and the setting is a
failure (skipped) as soon as any fold evaluation fails. -/
def cvScore (foldResults : List (Option ℚ)) : Option ℚ :=
  if foldResults.all fun r => r.isSome then
    some ((foldResults.filterMap id).sum / foldResults.length)
  else none

/-- Modelled from the spec: the §4.5 failure accounting — the number of
hyperparameter settings that were skipped (and logged) because their
evaluation failed. -/
def skippedCount (settings : List (List (Option ℚ))) : ℕ :=
  settings.countP fun s => (cvScore s).isNone

/-- Modelled from the spec: the §4.5 per-family search — the best mean
cross-validation score among the settings that evaluated successfully;
`none` when every setting of the family failed (the family is then excluded
from final selection). -/
def searchFamily (settings : List (List (Option ℚ))) : Option ℚ :=
  (settings.filterMap cvScore).max?

/-- Modelled from the spec: the §4.5 cross-family selection — the best score
among the families that produced one; the run fails fatally only when every
family failed. -/
def selectModel (families : List (List (List (Option ℚ)))) : Except String ℚ :=
  match (families.filterMap searchFamily).max? with
  | some best => .ok best
  | none => .error "all model families failed"

/-- Concrete search grid of spec scenario 4: twenty hyperparameter settings
evaluated over five folds, the first three settings raising a computation
error in one fold, the remaining seventeen succeeding on every fold with
mean score `i / 20` for setting `i`. -/
def scenarioSettings : List (List (Option ℚ)) :=
  (List.range 20).map fun i =>
    if i < 3 then none :: List.replicate 4 (some 1)
    else List.replicate 5 (some ((i : ℚ) / 20))

end Pipeline

/-- Payback months of one ROI block of `src/unnamed/part_006`: the division
happens only under the `benefit > annualMaintenanceCost` guard, otherwise the
block holds `Number.POSITIVE_INFINITY`. -/
theorem Part006.roiBlock_paybackMonths (i : Part006.NoShowInputs) (benefit : ℚ) :
    (Part006.roiBlock i benefit).paybackMonths =
      if i.annualMaintenanceCost < benefit then
        ((i.implementationCost / ((benefit - i.annualMaintenanceCost) / 12) : ℚ) : WithTop ℚ)
      else ⊤ := rfl

/-- C7: the ROI/financial-benefit arithmetic is deterministic — two
evaluations of the no-show `calculateROI` computation (both the
`src/pages/ROI.js` version and the `src/unnamed/part_006` version) on equal
inputs produce equal values for every output field; the embedded computation
is a pure function of its inputs, reading no clock and using no
randomness. -/
theorem roi_calculation_deterministic
    (i j : ROIPage.NoShowInputs) (k l : Part006.NoShowInputs)
    (hij : i = j) (hkl : k = l) :
    ROIPage.calculateROI i = ROIPage.calculateROI j ∧
    Part006.calculateROI k = Part006.calculateROI l :=
  ⟨by rw [hij], by rw [hkl]⟩

/-- Witness for C7: two evaluations at the calculators' default inputs agree
on every output field. -/
theorem roi_calculation_deterministic_witness :
    ROIPage.calculateROI ⟨50000, 25, 150, 30, 450000, 95000⟩ =
      ROIPage.calculateROI ⟨50000, 25, 150, 30, 450000, 95000⟩ ∧
    Part006.calculateROI ⟨50000, 25, 150, 30, 450000, 95000⟩ =
      Part006.calculateROI ⟨50000, 25, 150, 30, 450000, 95000⟩ :=
  roi_calculation_deterministic _ _ _ _ rfl rfl

/-- C8: the four no-show ROI calculator implementations agree on
appointments saved — for every annual visit count `v`, no-show rate `r` and
expected reduction `e` given as percentages, the `SimpleROICalculator`
evaluated at the decimal rates `r / 100` and `e / 100`, the ROI page
`NoShowCalculator`, the part 006 `NoShowCalculator` and the standalone
`ROICalculator` of part 007 all compute
`appointmentsSaved = round (v * (r / 100) * (e / 100))`. -/
theorem appointmentsSaved_agreement (v r e rev impl maint : ℚ) :
    (SimpleROI.calculateROI ⟨v, r / 100, rev, e / 100, impl, maint⟩).appointmentsSaved
        = jsRound (v * (r / 100) * (e / 100)) ∧
    (ROIPage.calculateROI ⟨v, r, rev, e, impl, maint⟩).appointmentsSaved
        = jsRound (v * (r / 100) * (e / 100)) ∧
    (Part006.calculateROI ⟨v, r, rev, e, impl, maint⟩).appointmentsSaved
        = jsRound (v * (r / 100) * (e / 100)) ∧
    Part007.appointmentsSaved v r e = jsRound (v * (r / 100) * (e / 100)) :=
  ⟨rfl, rfl, rfl, rfl⟩

/-- C9: for every positive volume and non-negative base price, volume factor
and maximum discount, `calculateImplementationCost` returns at least the
base price — the `Math.max` floor keeps the volume-scaled discount from
pushing the suggested cost below it. -/
theorem implementationCost_ge_basePrice (volume basePrice volumeFactor maxDiscount : ℝ)
    (hvol : 0 < volume) (hbase : 0 ≤ basePrice) (hfac : 0 ≤ volumeFactor)
    (hdisc : 0 ≤ maxDiscount) :
    basePrice ≤ Part006.calculateImplementationCost volume basePrice volumeFactor maxDiscount := by
  unfold Part006.calculateImplementationCost
  exact le_max_left _ _

/-- Witness for C9: the suggested implementation cost at the default
50,000-visit volume with base price 200,000, volume factor 5 and maximum
discount 40% is at least the base price. -/
theorem implementationCost_ge_basePrice_witness :
    (0 : ℝ) < 50000 ∧ (0 : ℝ) ≤ 200000 ∧ (0 : ℝ) ≤ 5 ∧ (0 : ℝ) ≤ 2 / 5 ∧
    (200000 : ℝ) ≤ Part006.calculateImplementationCost 50000 200000 5 (2 / 5) :=
  ⟨by norm_num, by norm_num, by norm_num, by norm_num,
    implementationCost_ge_basePrice 50000 200000 5 (2 / 5)
      (by norm_num) (by norm_num) (by norm_num) (by norm_num)⟩

/-- C10: in the part 006 `NoShowCalculator`, the payback-period division is
guarded — for non-negative inputs, `fullBenefitsROI.paybackMonths`
(respectively `directRevenueROI.paybackMonths`) is positive infinity exactly
when the corresponding annual benefit is at most `annualMaintenanceCost`,
equals `implementationCost / ((benefit - annualMaintenanceCost) / 12)` when
the benefit strictly exceeds it, and whenever the payback is finite the net
benefit divided by is strictly positive. -/
theorem paybackMonths_division_guarded (i : Part006.NoShowInputs)
    (hpos : 0 ≤ i.annualVisits ∧ 0 ≤ i.currentNoShowRate ∧ 0 ≤ i.revenuePerVisit ∧
      0 ≤ i.expectedReduction ∧ 0 ≤ i.implementationCost ∧ 0 ≤ i.annualMaintenanceCost) :
    ((Part006.calculateROI i).fullBenefitsROI.paybackMonths = ⊤ ↔
        Part006.totalAnnualBenefit i ≤ i.annualMaintenanceCost) ∧
    (i.annualMaintenanceCost < Part006.totalAnnualBenefit i →
        (Part006.calculateROI i).fullBenefitsROI.paybackMonths =
          ((i.implementationCost /
              ((Part006.totalAnnualBenefit i - i.annualMaintenanceCost) / 12) : ℚ) : WithTop ℚ)) ∧
    ((Part006.calculateROI i).directRevenueROI.paybackMonths = ⊤ ↔
        Part006.directRevenue i ≤ i.annualMaintenanceCost) ∧
    (i.annualMaintenanceCost < Part006.directRevenue i →
        (Part006.calculateROI i).directRevenueROI.paybackMonths =
          ((i.implementationCost /
              ((Part006.directRevenue i - i.annualMaintenanceCost) / 12) : ℚ) : WithTop ℚ)) ∧
    ((Part006.calculateROI i).fullBenefitsROI.paybackMonths ≠ ⊤ →
        0 < Part006.totalAnnualBenefit i - i.annualMaintenanceCost) ∧
    ((Part006.calculateROI i).directRevenueROI.paybackMonths ≠ ⊤ →
        0 < Part006.directRevenue i - i.annualMaintenanceCost) := by
  have hfull : (Part006.calculateROI i).fullBenefitsROI =
      Part006.roiBlock i (Part006.totalAnnualBenefit i) := rfl
  have hdir : (Part006.calculateROI i).directRevenueROI =
      Part006.roiBlock i (Part006.directRevenue i) := rfl
  have key : ∀ benefit : ℚ,
      ((Part006.roiBlock i benefit).paybackMonths = ⊤ ↔ benefit ≤ i.annualMaintenanceCost) ∧
      (i.annualMaintenanceCost < benefit →
        (Part006.roiBlock i benefit).paybackMonths =
          ((i.implementationCost / ((benefit - i.annualMaintenanceCost) / 12) : ℚ) : WithTop ℚ)) ∧
      ((Part006.roiBlock i benefit).paybackMonths ≠ ⊤ →
        0 < benefit - i.annualMaintenanceCost) := by
    intro benefit
    rw [Part006.roiBlock_paybackMonths]
    by_cases hlt : i.annualMaintenanceCost < benefit
    · rw [if_pos hlt]
      exact ⟨iff_of_false (WithTop.coe_ne_top) (not_le.mpr hlt),
        fun _ => rfl, fun _ => sub_pos.mpr hlt⟩
    · rw [if_neg hlt]
      exact ⟨iff_of_true rfl (le_of_not_lt hlt),
        fun hc => absurd hc hlt, fun hne => absurd rfl hne⟩
  rw [hfull, hdir]
  exact ⟨(key _).1, (key _).2.1, (key _).1, (key _).2.1, (key _).2.2, (key _).2.2⟩

/-- Witness for C10: at the calculator's default inputs the infinity guard of
the full-benefits payback period holds as an equivalence. -/
theorem paybackMonths_division_guarded_witness :
    (0 : ℚ) ≤ 50000 ∧
    ((Part006.calculateROI ⟨50000, 25, 150, 30, 450000, 95000⟩).fullBenefitsROI.paybackMonths = ⊤ ↔
      Part006.totalAnnualBenefit ⟨50000, 25, 150, 30, 450000, 95000⟩ ≤ 95000) :=
  ⟨by norm_num,
    (paybackMonths_division_guarded ⟨50000, 25, 150, 30, 450000, 95000⟩
      ⟨by norm_num, by norm_num, by norm_num, by norm_num, by norm_num, by norm_num⟩).1⟩

/-- Counting with a predicate that entails the filter's predicate is
unaffected by the filter. -/
theorem countP_filter_of_imp {α : Type} (p q : α → Bool)
    (hpq : ∀ a, p a = true → q a = true) :
    ∀ l : List α, (l.filter q).countP p = l.countP p := by
  intro l
  induction l with
  | nil => simp
  | cons a l ih =>
    by_cases hq : q a = true
    · simp only [List.filter_cons, hq, if_pos, List.countP_cons, ih]
    · have hp : p a = false := by
        cases hpa : p a
        · rfl
        · exact absurd (hpq a hpa) hq
      simp only [List.filter_cons, hq, if_neg, Bool.false_eq_true, ite_false,
        List.countP_cons, hp, ih, cond_false, Nat.add_zero]

/-- C1: two-run noninterference of feature extraction with respect to future
events — the feature vector of a case is a function only of the subject's
events timestamped at or before the index time and of the case's static
attributes, so two event logs that agree on that visible part (in
particular, logs differing only by events with `event_time > index_time`
added or removed) yield identical feature vectors. -/
theorem feature_extraction_noninterference (c : Pipeline.Case)
    (log log' : List Pipeline.Event)
    (h : log.filter (Pipeline.visible c) = log'.filter (Pipeline.visible c)) :
    Pipeline.extractFeatures c log = Pipeline.extractFeatures c log' := by
  have key : ∀ p : Pipeline.Event → Bool,
      (∀ e, p e = true → Pipeline.visible c e = true) →
      log.countP p = log'.countP p := fun p hp => by
    rw [← countP_filter_of_imp p (Pipeline.visible c) hp log,
        ← countP_filter_of_imp p (Pipeline.visible c) hp log', h]
  simp only [Pipeline.extractFeatures, Pipeline.FeatureVector.mk.injEq]
  refine ⟨trivial, key _ ?_, key _ ?_, key _ ?_, key _ ?_, trivial⟩
  · intro e he
    simp only [Pipeline.visible, Bool.and_eq_true, beq_iff_eq, decide_eq_true_eq] at he ⊢
    exact ⟨he.1.1, he.2.le⟩
  · intro e he
    simp only [Pipeline.visible, Bool.and_eq_true, beq_iff_eq, decide_eq_true_eq] at he ⊢
    exact ⟨he.1.1, he.2⟩
  · intro e he
    simp only [Pipeline.visible, Bool.and_eq_true, beq_iff_eq, decide_eq_true_eq] at he ⊢
    exact ⟨he.1.1, he.2⟩
  · intro e he
    simp only [Pipeline.visible, Bool.and_eq_true, beq_iff_eq, decide_eq_true_eq] at he ⊢
    exact ⟨he.1.1, he.2.le⟩

/-- Sample case for concrete witnesses: subject 1, index time 10, a 30-day
outcome window. -/
def sampleCase : Pipeline.Case :=
  { case_id := 0, subject_id := 1, index_time := 10, outcome_window_end := 40, birth_date := 0 }

/-- Sample past event of subject 1 (before the index time of
`sampleCase`). -/
def pastEvent : Pipeline.Event :=
  { subject_id := 1, event_time := 5, event_type := .noShow, payload := 0 }

/-- Sample future event of subject 1 (after the index time of `sampleCase`,
inside its outcome window). -/
def futureEvent : Pipeline.Event :=
  { subject_id := 1, event_time := 20, event_type := .admission, payload := 0 }

/-- Witness for C1: removing a future admission event from the log leaves
the sample case's feature vector unchanged. -/
theorem feature_extraction_noninterference_witness :
    [pastEvent, futureEvent].filter (Pipeline.visible sampleCase) =
      [pastEvent].filter (Pipeline.visible sampleCase) ∧
    Pipeline.extractFeatures sampleCase [pastEvent, futureEvent] =
      Pipeline.extractFeatures sampleCase [pastEvent] :=
  ⟨by decide, feature_extraction_noninterference sampleCase _ _ (by decide)⟩

/-- C2: a case whose outcome window extends past the data horizon gets
`label_known = false` from the Label Constructor, and such a case is
excluded by the Dataset Assembler — it appears in no assembled
train/validation/test partition and the assembled label table has no row for
its case id (its label is never imputed). -/
theorem censored_cases_excluded (seed trainPct validPct : ℕ) (horizon : ℤ)
    (cases : List Pipeline.Case) (log : List Pipeline.Event) (c : Pipeline.Case)
    (hcensored : horizon < c.outcome_window_end)
    (hmem : c ∈ cases)
    (hnodup : (cases.map Pipeline.Case.case_id).Nodup) :
    (Pipeline.constructLabel c log horizon).label_known = false ∧
    c ∉ (Pipeline.assemble seed trainPct validPct horizon cases log).1 ∧
    c ∉ (Pipeline.assemble seed trainPct validPct horizon cases log).2.1 ∧
    c ∉ (Pipeline.assemble seed trainPct validPct horizon cases log).2.2 ∧
    c.case_id ∉ (Pipeline.assembledLabels horizon cases log).map Prod.fst := by
  have hlk : (Pipeline.constructLabel c log horizon).label_known = false := by
    simp only [Pipeline.constructLabel, decide_eq_false_iff_not, not_le]
    exact hcensored
  have hdrop : ∀ x ∈ cases.filter
      (fun c' => (Pipeline.constructLabel c' log horizon).label_known), x ≠ c := by
    intro x hx hxc
    obtain ⟨-, hk⟩ := List.mem_filter.mp hx
    rw [hxc, hlk] at hk
    cases hk
  refine ⟨hlk, ?_, ?_, ?_, ?_⟩
  · intro hc
    obtain ⟨hc', -⟩ := List.mem_filter.mp hc
    exact hdrop c hc' rfl
  · intro hc
    obtain ⟨hc', -⟩ := List.mem_filter.mp hc
    exact hdrop c hc' rfl
  · intro hc
    obtain ⟨hc', -⟩ := List.mem_filter.mp hc
    exact hdrop c hc' rfl
  · intro hid
    simp only [Pipeline.assembledLabels, List.map_map, List.mem_map,
      Function.comp_apply] at hid
    obtain ⟨c', hc', hce⟩ := hid
    obtain ⟨hc'mem, hk⟩ := List.mem_filter.mp hc'
    have : c' = c :=
      List.inj_on_of_nodup_map hnodup hc'mem hmem hce
    rw [this, hlk] at hk
    cases hk

/-- Sample censored case: its outcome window ends at day 40, past the day-15
horizon used in the witness. -/
def censoredCase : Pipeline.Case :=
  { case_id := 2, subject_id := 3, index_time := 10, outcome_window_end := 40, birth_date := 0 }

/-- Witness for C2: with the data horizon at day 15 the sample censored case
is label-unknown and lands in no partition and no label row. -/
theorem censored_cases_excluded_witness :
    (15 : ℤ) < censoredCase.outcome_window_end ∧
    ((Pipeline.constructLabel censoredCase [] 15).label_known = false ∧
     censoredCase ∉ (Pipeline.assemble 0 70 15 15 [censoredCase] []).1 ∧
     censoredCase ∉ (Pipeline.assemble 0 70 15 15 [censoredCase] []).2.1 ∧
     censoredCase ∉ (Pipeline.assemble 0 70 15 15 [censoredCase] []).2.2 ∧
     censoredCase.case_id ∉ (Pipeline.assembledLabels 15 [censoredCase] []).map Prod.fst) :=
  ⟨by decide,
    censored_cases_excluded 0 70 15 15 [censoredCase] [] censoredCase
      (by decide) (by decide) (by decide)⟩

/-- Membership in one output partition of the subject-level split is
membership in the input cohort together with the subject's assignment to
that partition. -/
theorem Pipeline.mem_splitCases (seed trainPct validPct : ℕ) (cases : List Pipeline.Case)
    (c : Pipeline.Case) (p : Pipeline.Part) :
    c ∈ cases.filter
        (fun x => Pipeline.assignPart seed trainPct validPct x.subject_id == p) ↔
      c ∈ cases ∧ Pipeline.assignPart seed trainPct validPct c.subject_id = p := by
  rw [List.mem_filter, beq_iff_eq]

/-- C3: the subject-level split produces pairwise disjoint partitions (no
case id occurs in two of them), every input case lands in exactly one
partition, and all cases of one subject land in the same partition. -/
theorem partitions_disjoint_subject_grouped (seed trainPct validPct : ℕ)
    (cases : List Pipeline.Case)
    (hnodup : (cases.map Pipeline.Case.case_id).Nodup) :
    (∀ c1 ∈ (Pipeline.splitCases seed trainPct validPct cases).1,
      ∀ c2 ∈ (Pipeline.splitCases seed trainPct validPct cases).2.1,
        c1.case_id ≠ c2.case_id) ∧
    (∀ c1 ∈ (Pipeline.splitCases seed trainPct validPct cases).1,
      ∀ c2 ∈ (Pipeline.splitCases seed trainPct validPct cases).2.2,
        c1.case_id ≠ c2.case_id) ∧
    (∀ c1 ∈ (Pipeline.splitCases seed trainPct validPct cases).2.1,
      ∀ c2 ∈ (Pipeline.splitCases seed trainPct validPct cases).2.2,
        c1.case_id ≠ c2.case_id) ∧
    (∀ c ∈ cases,
      (c ∈ (Pipeline.splitCases seed trainPct validPct cases).1 ∧
        c ∉ (Pipeline.splitCases seed trainPct validPct cases).2.1 ∧
        c ∉ (Pipeline.splitCases seed trainPct validPct cases).2.2) ∨
      (c ∉ (Pipeline.splitCases seed trainPct validPct cases).1 ∧
        c ∈ (Pipeline.splitCases seed trainPct validPct cases).2.1 ∧
        c ∉ (Pipeline.splitCases seed trainPct validPct cases).2.2) ∨
      (c ∉ (Pipeline.splitCases seed trainPct validPct cases).1 ∧
        c ∉ (Pipeline.splitCases seed trainPct validPct cases).2.1 ∧
        c ∈ (Pipeline.splitCases seed trainPct validPct cases).2.2)) ∧
    (∀ c1 ∈ cases, ∀ c2 ∈ cases, c1.subject_id = c2.subject_id →
      ((c1 ∈ (Pipeline.splitCases seed trainPct validPct cases).1 ↔
          c2 ∈ (Pipeline.splitCases seed trainPct validPct cases).1) ∧
       (c1 ∈ (Pipeline.splitCases seed trainPct validPct cases).2.1 ↔
          c2 ∈ (Pipeline.splitCases seed trainPct validPct cases).2.1) ∧
       (c1 ∈ (Pipeline.splitCases seed trainPct validPct cases).2.2 ↔
          c2 ∈ (Pipeline.splitCases seed trainPct validPct cases).2.2))) := by
  have hdisj : ∀ p q : Pipeline.Part, p ≠ q →
      ∀ c1 ∈ cases.filter
        (fun x => Pipeline.assignPart seed trainPct validPct x.subject_id == p),
      ∀ c2 ∈ cases.filter
        (fun x => Pipeline.assignPart seed trainPct validPct x.subject_id == q),
        c1.case_id ≠ c2.case_id := by
    intro p q hpq c1 h1 c2 h2 hid
    obtain ⟨hm1, ha1⟩ := (Pipeline.mem_splitCases seed trainPct validPct cases c1 p).mp h1
    obtain ⟨hm2, ha2⟩ := (Pipeline.mem_splitCases seed trainPct validPct cases c2 q).mp h2
    have he : c1 = c2 := List.inj_on_of_nodup_map hnodup hm1 hm2 hid
    rw [he, ha2] at ha1
    exact hpq ha1.symm
  refine ⟨hdisj .train .valid (by decide), hdisj .train .test (by decide),
    hdisj .valid .test (by decide), ?_, ?_⟩
  · intro c hc
    have hin : ∀ p, Pipeline.assignPart seed trainPct validPct c.subject_id = p →
        c ∈ cases.filter
          (fun x => Pipeline.assignPart seed trainPct validPct x.subject_id == p) :=
      fun p hp => (Pipeline.mem_splitCases seed trainPct validPct cases c p).mpr ⟨hc, hp⟩
    have hout : ∀ p, Pipeline.assignPart seed trainPct validPct c.subject_id ≠ p →
        c ∉ cases.filter
          (fun x => Pipeline.assignPart seed trainPct validPct x.subject_id == p) :=
      fun p hp hmem =>
        hp ((Pipeline.mem_splitCases seed trainPct validPct cases c p).mp hmem).2
    cases ha : Pipeline.assignPart seed trainPct validPct c.subject_id with
    | train => exact Or.inl ⟨hin _ ha, hout _ (by rw [ha]; decide), hout _ (by rw [ha]; decide)⟩
    | valid => exact Or.inr (Or.inl ⟨hout _ (by rw [ha]; decide), hin _ ha,
        hout _ (by rw [ha]; decide)⟩)
    | test => exact Or.inr (Or.inr ⟨hout _ (by rw [ha]; decide),
        hout _ (by rw [ha]; decide), hin _ ha⟩)
  · intro c1 h1 c2 h2 hsub
    have hsame : Pipeline.assignPart seed trainPct validPct c1.subject_id =
        Pipeline.assignPart seed trainPct validPct c2.subject_id := by rw [hsub]
    refine ⟨?_, ?_, ?_⟩
    all_goals
      simp only [Pipeline.splitCases]
      rw [Pipeline.mem_splitCases, Pipeline.mem_splitCases, hsame]
      exact and_congr_left fun _ => ⟨fun _ => h2, fun _ => h1⟩

/-- Small sample cohort: two cases of subject 1 and one case of subject 2,
with distinct case ids. -/
def smallCohort : List Pipeline.Case :=
  [{ case_id := 0, subject_id := 1, index_time := 0, outcome_window_end := 30, birth_date := 0 },
   { case_id := 1, subject_id := 1, index_time := 5, outcome_window_end := 35, birth_date := 0 },
   { case_id := 2, subject_id := 2, index_time := 0, outcome_window_end := 30, birth_date := 0 }]

/-- Witness for C3: on the sample cohort with seed 42 and a 70/15/15 split,
the train and validation partitions share no case id. -/
theorem partitions_disjoint_subject_grouped_witness :
    (smallCohort.map Pipeline.Case.case_id).Nodup ∧
    (∀ c1 ∈ (Pipeline.splitCases 42 70 15 smallCohort).1,
      ∀ c2 ∈ (Pipeline.splitCases 42 70 15 smallCohort).2.1,
        c1.case_id ≠ c2.case_id) :=
  ⟨by decide, (partitions_disjoint_subject_grouped 42 70 15 smallCohort (by decide)).1⟩

/-- C4: first-occurrence semantics of the readmission label — for an
admission discharged at time `D` under a 30-day window, a follow-up
admission of the same subject at `D + 10` makes the label positive, one at
`D + 45` leaves it negative, and as soon as any qualifying event exists in
the forward window `(index_time, outcome_window_end]` the label is
positive. -/
theorem readmission_label_first_occurrence :
    (∀ (D : ℤ) (s cid : ℕ) (horizon : ℤ),
      (Pipeline.constructLabel
          { case_id := cid, subject_id := s, index_time := D,
            outcome_window_end := D + 30, birth_date := 0 }
          [{ subject_id := s, event_time := D + 10, event_type := .admission, payload := 0 }]
          horizon).label = true) ∧
    (∀ (D : ℤ) (s cid : ℕ) (horizon : ℤ),
      (Pipeline.constructLabel
          { case_id := cid, subject_id := s, index_time := D,
            outcome_window_end := D + 30, birth_date := 0 }
          [{ subject_id := s, event_time := D + 45, event_type := .admission, payload := 0 }]
          horizon).label = false) ∧
    (∀ (c : Pipeline.Case) (log : List Pipeline.Event) (horizon : ℤ),
      (∃ e ∈ log, Pipeline.qualifies c e = true) →
      (Pipeline.constructLabel c log horizon).label = true) := by
  refine ⟨?_, ?_, ?_⟩
  · intro D s cid horizon
    simp only [Pipeline.constructLabel, Pipeline.qualifies, List.any_cons, List.any_nil,
      Bool.or_false, Bool.and_eq_true, beq_self_eq_true, decide_eq_true_eq, true_and]
    omega
  · intro D s cid horizon
    simp only [Pipeline.constructLabel, Pipeline.qualifies, List.any_cons, List.any_nil,
      Bool.or_false, Bool.and_eq_false_iff, beq_self_eq_true]
    right
    simp only [decide_eq_false_iff_not, not_le]
    omega
  · intro c log horizon h
    simp only [Pipeline.constructLabel, List.any_eq_true]
    exact h

/-- Witness for C4: at `D = 0` the day-10 follow-up admission yields a
positive label, the day-45 one a negative label, and the qualifying future
admission of the sample case makes its label positive. -/
theorem readmission_label_first_occurrence_witness :
    (Pipeline.constructLabel
        { case_id := 0, subject_id := 1, index_time := 0,
          outcome_window_end := 0 + 30, birth_date := 0 }
        [{ subject_id := 1, event_time := 0 + 10, event_type := .admission, payload := 0 }]
        100).label = true ∧
    (Pipeline.constructLabel
        { case_id := 0, subject_id := 1, index_time := 0,
          outcome_window_end := 0 + 30, birth_date := 0 }
        [{ subject_id := 1, event_time := 0 + 45, event_type := .admission, payload := 0 }]
        100).label = false ∧
    (Pipeline.constructLabel sampleCase [futureEvent] 100).label = true :=
  ⟨readmission_label_first_occurrence.1 0 1 0 100,
   readmission_label_first_occurrence.2.1 0 1 0 100,
   readmission_label_first_occurrence.2.2 sampleCase [futureEvent] 100
     ⟨futureEvent, by decide, by decide⟩⟩

/-- C5: the subject-level split is deterministic in the seed — two runs of
the partitioning on identical cohorts with identical proportions and the
same seed produce identical partitions. -/
theorem split_deterministic_in_seed (seed1 seed2 trainPct1 trainPct2 validPct1 validPct2 : ℕ)
    (cases1 cases2 : List Pipeline.Case)
    (hseed : seed1 = seed2) (htrain : trainPct1 = trainPct2)
    (hvalid : validPct1 = validPct2) (hcases : cases1 = cases2) :
    Pipeline.splitCases seed1 trainPct1 validPct1 cases1 =
      Pipeline.splitCases seed2 trainPct2 validPct2 cases2 := by
  rw [hseed, htrain, hvalid, hcases]

/-- Cohort of spec scenario 3: 10,000 cases over 2,000 unique subjects. -/
def cohort10000 : List Pipeline.Case :=
  (List.range 10000).map fun i =>
    { case_id := i, subject_id := i % 2000, index_time := 0,
      outcome_window_end := 30, birth_date := 0 }

/-- Witness for C5: two runs of the 70/15/15 split of the 10,000-case,
2,000-subject cohort with seed 42 produce the same partitions. -/
theorem split_deterministic_in_seed_witness :
    Pipeline.splitCases 42 70 15 cohort10000 = Pipeline.splitCases 42 70 15 cohort10000 :=
  split_deterministic_in_seed 42 42 70 70 15 15 cohort10000 cohort10000 rfl rfl rfl rfl

/-- A model family is excluded from final selection exactly when every one
of its hyperparameter settings failed. -/
theorem Pipeline.searchFamily_eq_none_iff (settings : List (List (Option ℚ))) :
    Pipeline.searchFamily settings = none ↔
      ∀ s ∈ settings, Pipeline.cvScore s = none := by
  rw [Pipeline.searchFamily, List.max?_eq_none_iff, List.filterMap_eq_nil_iff]

/-- Final selection succeeds exactly when at least one family has at least
one successfully evaluated setting. -/
theorem Pipeline.selectModel_ok_iff (families : List (List (List (Option ℚ)))) :
    (∃ b, Pipeline.selectModel families = Except.ok b) ↔
      ∃ f ∈ families, ∃ s ∈ f, (Pipeline.cvScore s).isSome = true := by
  unfold Pipeline.selectModel
  rcases hmax : (families.filterMap Pipeline.searchFamily).max? with _ | val
  · simp only [hmax]
    constructor
    · rintro ⟨b, hb⟩
      exact absurd hb (by simp)
    · rintro ⟨f, hf, s, hs, hsome⟩
      exfalso
      rw [List.max?_eq_none_iff, List.filterMap_eq_nil_iff] at hmax
      have hnone := hmax f hf
      rw [Pipeline.searchFamily_eq_none_iff] at hnone
      rw [hnone s hs] at hsome
      cases hsome
  · simp only [hmax]
    constructor
    · rintro ⟨b, -⟩
      have hv : val ∈ families.filterMap Pipeline.searchFamily :=
        List.max?_mem max_choice hmax
      rw [List.mem_filterMap] at hv
      obtain ⟨f, hf, hsf⟩ := hv
      refine ⟨f, hf, ?_⟩
      by_contra hall
      push_neg at hall
      have hnone : Pipeline.searchFamily f = none := by
        rw [Pipeline.searchFamily_eq_none_iff]
        intro s hs
        exact Option.not_isSome_iff_eq_none.mp (hall s hs)
      rw [hnone] at hsf
      cases hsf
    · intro _
      exact ⟨val, rfl⟩

/-- A selected best score always comes from a successful setting evaluation
of one of the families. -/
theorem Pipeline.selectModel_ok_mem (families : List (List (List (Option ℚ)))) (b : ℚ)
    (hb : Pipeline.selectModel families = Except.ok b) :
    ∃ f ∈ families, b ∈ f.filterMap Pipeline.cvScore := by
  unfold Pipeline.selectModel at hb
  rcases hmax : (families.filterMap Pipeline.searchFamily).max? with _ | val
  · rw [hmax] at hb
    cases hb
  · rw [hmax] at hb
    have hbv : val = b := by
      cases hb
      rfl
    subst hbv
    have hv : val ∈ families.filterMap Pipeline.searchFamily :=
      List.max?_mem max_choice hmax
    rw [List.mem_filterMap] at hv
    obtain ⟨f, hf, hsf⟩ := hv
    exact ⟨f, hf, List.max?_mem max_choice hsf⟩

set_option maxRecDepth 10000 in
unseal Rat.add Rat.mul Rat.inv Rat.sub in
/-- In spec scenario 4 exactly the three error-raising settings are counted
as skipped. -/
theorem Pipeline.skippedCount_scenario :
    Pipeline.skippedCount Pipeline.scenarioSettings = 3 := by decide

set_option maxRecDepth 10000 in
unseal Rat.add Rat.mul Rat.inv Rat.sub in
/-- In spec scenario 4 the best mean cross-validation score over the
successful settings is 19/20. -/
theorem Pipeline.searchFamily_scenario :
    ([Pipeline.scenarioSettings].filterMap Pipeline.searchFamily).max? =
      some (19 / 20) := by decide

/-- C6: failure semantics of the hyperparameter search — a failing setting
is skipped without aborting the search, a family whose settings all fail is
excluded from final selection (`searchFamily = none`), the run fails fatally
exactly when every family fails, the selected best score always comes from a
successful setting evaluation, and in the concrete 5-fold × 20-setting
scenario with 3 erroring settings the search still selects the best model
(score 19/20) and counts exactly 3 skipped settings. -/
theorem search_failure_semantics :
    (∀ settings : List (List (Option ℚ)),
      Pipeline.searchFamily settings = none ↔
        ∀ s ∈ settings, Pipeline.cvScore s = none) ∧
    (∀ families : List (List (List (Option ℚ))),
      (∃ b, Pipeline.selectModel families = Except.ok b) ↔
        ∃ f ∈ families, ∃ s ∈ f, (Pipeline.cvScore s).isSome = true) ∧
    (∀ (families : List (List (List (Option ℚ)))) (b : ℚ),
      Pipeline.selectModel families = Except.ok b →
        ∃ f ∈ families, b ∈ f.filterMap Pipeline.cvScore) ∧
    Pipeline.skippedCount Pipeline.scenarioSettings = 3 ∧
    Pipeline.selectModel [Pipeline.scenarioSettings] = Except.ok (19 / 20) := by
  refine ⟨Pipeline.searchFamily_eq_none_iff, Pipeline.selectModel_ok_iff,
    Pipeline.selectModel_ok_mem, Pipeline.skippedCount_scenario, ?_⟩
  simp [Pipeline.selectModel, Pipeline.searchFamily_scenario]

/-- Witness for C6: a family whose single setting fails on its single fold
is excluded, obtained from the general equivalence at a concrete input. -/
theorem search_failure_semantics_witness :
    Pipeline.searchFamily [[(none : Option ℚ)]] = none :=
  (search_failure_semantics.1 [[(none : Option ℚ)]]).mpr (by decide)

